import Mathlib

/-!
Verification of the nitro-testnode deployment orchestrator (douglance/ntn).

This file shallowly embeds the parts of the TypeScript source that the
claims concern:

* `src/types/flags.ts`        — the `TestnodeFlags` record and its defaults;
* `src/config/validation.ts`  — `validateFlags` and its helper validators;
* `src/config/services.ts`    — `calculateServices` and
  `calculateInitialSequencerNodes`;
* `src/utils/shell.ts`        — `getLastLine` / `cleanOutput` string
  utilities, plus the address-extraction logic of
  `deployBiddingToken` (`src/orchestration/timeboost.ts`);
* `src/docker/compose.ts`, `src/orchestration/index.ts` and
  `src/orchestration/l1-setup.ts` / `prysm.ts` — the phase scheduler and
  the L1 bootstrap sub-workflow, embedded over an abstract command
  executor.

JavaScript numbers that the code compares against integer bounds are
modelled as `Int`; JavaScript strings manipulated character-by-character
are modelled as `List Char`; fallible operations return `Except`.
-/

/-! ## Flags (src/types/flags.ts) -/

/-- All CLI flags for nitro-testnode (`TestnodeFlags` in flags.ts).
Numeric fields are JavaScript numbers, modelled as `Int`. -/
structure TestnodeFlags where
  init : Bool
  force : Bool
  devNitro : Bool
  devBlockscout : Bool
  devContracts : Bool
  build : Bool
  buildDevNitro : Bool
  buildDevBlockscout : Bool
  buildUtils : Bool
  forceBuildUtils : Bool
  buildNodeImages : Bool
  validate : Bool
  blockscout : Bool
  tokenbridge : Bool
  l3node : Bool
  l3FeeToken : Bool
  l3FeeTokenPricer : Bool
  l3FeeTokenDecimals : Int
  l3TokenBridge : Bool
  l2Anytrust : Bool
  l2Timeboost : Bool
  batchposters : Int
  redundantsequencers : Int
  pos : Bool
  run : Bool
  detach : Bool
  nowait : Bool
  simple : Bool
  l1Traffic : Bool
  l2Traffic : Bool
  l3Traffic : Bool
  ci : Bool
  verbose : Bool
  deriving DecidableEq, Repr

/-- Default flag values (`defaultFlags` in flags.ts). -/
def defaultFlags : TestnodeFlags where
  init := false
  force := false
  devNitro := false
  devBlockscout := false
  devContracts := false
  build := false
  buildDevNitro := false
  buildDevBlockscout := false
  buildUtils := false
  forceBuildUtils := false
  buildNodeImages := false
  validate := false
  blockscout := false
  tokenbridge := false
  l3node := false
  l3FeeToken := false
  l3FeeTokenPricer := false
  l3FeeTokenDecimals := 18
  l3TokenBridge := false
  l2Anytrust := false
  l2Timeboost := false
  batchposters := 1
  redundantsequencers := 0
  pos := false
  run := true
  detach := false
  nowait := false
  simple := true
  l1Traffic := true
  l2Traffic := true
  l3Traffic := true
  ci := false
  verbose := false

/-! ## Constants (src/config/defaults.ts) -/

def MAX_BATCH_POSTERS : Int := 3
def MAX_REDUNDANT_SEQUENCERS : Int := 3
def MIN_FEE_TOKEN_DECIMALS : Int := 0
def MAX_FEE_TOKEN_DECIMALS : Int := 36
def DEFAULT_FEE_TOKEN_DECIMALS : Int := 18

/-! ## Flag validation (src/config/validation.ts) -/

/-- Error codes for validation failures (`ValidationErrorCode`). -/
inductive ValidationErrorCode where
  | NOWAIT_REQUIRES_DETACH
  | L3_FEE_TOKEN_REQUIRES_L3NODE
  | L3_FEE_TOKEN_PRICER_REQUIRES_FEE_TOKEN
  | L3_FEE_TOKEN_DECIMALS_REQUIRES_FEE_TOKEN
  | L3_FEE_TOKEN_DECIMALS_OUT_OF_RANGE
  | BATCH_POSTERS_OUT_OF_RANGE
  | REDUNDANT_SEQUENCERS_OUT_OF_RANGE
  | L3_TOKEN_BRIDGE_REQUIRES_L3NODE
  deriving DecidableEq, Repr

/-- Warning codes for non-fatal validation issues (`ValidationWarningCode`). -/
inductive ValidationWarningCode where
  | SIMPLE_MODE_IGNORES_BATCH_POSTERS
  | SIMPLE_MODE_IGNORES_REDUNDANT_SEQUENCERS
  | L3_TRAFFIC_WITHOUT_L3NODE
  deriving DecidableEq, Repr

/-- Validation error with code for programmatic handling (`ValidationError`).
The optional `field` holds the name of the offending flag. -/
structure ValidationError where
  code : ValidationErrorCode
  message : String
  field : Option String := none
  deriving DecidableEq, Repr

/-- Validation warning, non-fatal (`ValidationWarning`). -/
structure ValidationWarning where
  code : ValidationWarningCode
  message : String
  field : Option String := none
  deriving DecidableEq, Repr

/-- Result of flag validation (`ValidationResult`). -/
structure ValidationResult where
  valid : Bool
  errors : List ValidationError
  warnings : List ValidationWarning
  deriving DecidableEq, Repr

/-- Validates runtime flag dependencies (`validateRuntimeDependencies`,
bash line 198-201). The imperative pushes are rendered as conditional
singleton lists concatenated in push order. -/
def validateRuntimeDependencies (flags : TestnodeFlags) : List ValidationError :=
  if flags.nowait && !flags.detach then
    [{ code := .NOWAIT_REQUIRES_DETACH,
       message := "--nowait requires --detach to be provided",
       field := some "nowait" }]
  else []

/-- Validates L3-related flag dependencies (`validateL3Dependencies`,
bash lines 225-257). -/
def validateL3Dependencies (flags : TestnodeFlags) : List ValidationError :=
  (if flags.l3FeeToken && !flags.l3node then
    [{ code := .L3_FEE_TOKEN_REQUIRES_L3NODE,
       message := "--l3-fee-token requires --l3node to be provided",
       field := some "l3FeeToken" }]
   else [])
  ++
  (if flags.l3FeeTokenPricer && !flags.l3FeeToken then
    [{ code := .L3_FEE_TOKEN_PRICER_REQUIRES_FEE_TOKEN,
       message := "--l3-fee-token-pricer requires --l3-fee-token to be provided",
       field := some "l3FeeTokenPricer" }]
   else [])
  ++
  (if flags.l3FeeTokenDecimals ≠ 18 ∧ !flags.l3FeeToken then
    [{ code := .L3_FEE_TOKEN_DECIMALS_REQUIRES_FEE_TOKEN,
       message := "--l3-fee-token-decimals requires --l3-fee-token to be provided",
       field := some "l3FeeTokenDecimals" }]
   else [])
  ++
  (if flags.l3TokenBridge && !flags.l3node then
    [{ code := .L3_TOKEN_BRIDGE_REQUIRES_L3NODE,
       message := "--l3-token-bridge requires --l3node to be provided",
       field := some "l3TokenBridge" }]
   else [])

/-- Validates numeric range constraints (`validateRangeConstraints`,
bash lines 208-211, 246-248, 272-275). -/
def validateRangeConstraints (flags : TestnodeFlags) : List ValidationError :=
  (if flags.l3FeeTokenDecimals < MIN_FEE_TOKEN_DECIMALS ∨
      flags.l3FeeTokenDecimals > MAX_FEE_TOKEN_DECIMALS then
    [{ code := .L3_FEE_TOKEN_DECIMALS_OUT_OF_RANGE,
       message := "l3-fee-token-decimals must be in range [" ++
         toString MIN_FEE_TOKEN_DECIMALS ++ "," ++ toString MAX_FEE_TOKEN_DECIMALS ++
         "], value: " ++ toString flags.l3FeeTokenDecimals,
       field := some "l3FeeTokenDecimals" }]
   else [])
  ++
  (if flags.batchposters < 0 ∨ flags.batchposters > MAX_BATCH_POSTERS then
    [{ code := .BATCH_POSTERS_OUT_OF_RANGE,
       message := "batchposters must be between 0 and " ++ toString MAX_BATCH_POSTERS ++
         ", value: " ++ toString flags.batchposters,
       field := some "batchposters" }]
   else [])
  ++
  (if flags.redundantsequencers < 0 ∨ flags.redundantsequencers > MAX_REDUNDANT_SEQUENCERS then
    [{ code := .REDUNDANT_SEQUENCERS_OUT_OF_RANGE,
       message := "redundantsequencers must be between 0 and " ++
         toString MAX_REDUNDANT_SEQUENCERS ++ ", value: " ++
         toString flags.redundantsequencers,
       field := some "redundantsequencers" }]
   else [])

/-- Generates warnings for suboptimal configurations (`generateWarnings`). -/
def generateWarnings (flags : TestnodeFlags) : List ValidationWarning :=
  (if flags.simple ∧ flags.batchposters > 1 then
    [{ code := .SIMPLE_MODE_IGNORES_BATCH_POSTERS,
       message := "Simple mode uses a single combined node; batchposters setting will be ignored",
       field := some "batchposters" }]
   else [])
  ++
  (if flags.simple ∧ flags.redundantsequencers > 0 then
    [{ code := .SIMPLE_MODE_IGNORES_REDUNDANT_SEQUENCERS,
       message := "Simple mode uses a single sequencer; redundantsequencers setting will be ignored",
       field := some "redundantsequencers" }]
   else [])
  ++
  (if flags.l3Traffic && !flags.l3node then
    [{ code := .L3_TRAFFIC_WITHOUT_L3NODE,
       message := "L3 traffic generation enabled but --l3node is not set",
       field := some "l3Traffic" }]
   else [])

/-- Validates flag combinations for compatibility (`validateFlags`). -/
def validateFlags (flags : TestnodeFlags) : ValidationResult :=
  let errors :=
    validateRuntimeDependencies flags ++
    validateL3Dependencies flags ++
    validateRangeConstraints flags
  let warnings := generateWarnings flags
  { valid := errors.length == 0
    errors := errors
    warnings := warnings }

/-! ## Service topology (src/config/services.ts) -/

/-- Flags required for service calculation (`ServiceCalculationFlags`),
the subset of `TestnodeFlags` used by `calculateServices`.
The TypeScript field type `0 | 1 | 2 | 3` is a JavaScript number,
modelled as `Int`. -/
structure ServiceCalculationFlags where
  simple : Bool
  redundantsequencers : Int
  batchposters : Int
  validate : Bool
  l3node : Bool
  blockscout : Bool
  l2Timeboost : Bool
  deriving DecidableEq, Repr

/-- TypeScript passes a `TestnodeFlags` record structurally where a
`ServiceCalculationFlags` is expected; this is the corresponding
field projection. -/
def toServiceFlags (flags : TestnodeFlags) : ServiceCalculationFlags where
  simple := flags.simple
  redundantsequencers := flags.redundantsequencers
  batchposters := flags.batchposters
  validate := flags.validate
  l3node := flags.l3node
  blockscout := flags.blockscout
  l2Timeboost := flags.l2Timeboost

/-- Calculates the list of docker-compose services to run based on flags
(`calculateServices`, porting test-node.bash lines 337-379). Service names
are the string literals of the `ServiceName` union; the imperative pushes
are rendered as conditional list segments concatenated in push order. -/
def calculateServices (flags : ServiceCalculationFlags) : List String :=
  ["sequencer"]
  ++ (if !flags.simple then ["redis"] else [])
  ++ (if flags.redundantsequencers > 0 then ["sequencer_b"] else [])
  ++ (if flags.redundantsequencers > 1 then ["sequencer_c"] else [])
  ++ (if flags.redundantsequencers > 2 then ["sequencer_d"] else [])
  ++ (if flags.batchposters > 0 ∧ !flags.simple then ["poster"] else [])
  ++ (if flags.batchposters > 1 then ["poster_b"] else [])
  ++ (if flags.batchposters > 2 then ["poster_c"] else [])
  ++ (if flags.validate then ["validator"]
      else if !flags.simple then ["staker-unsafe"] else [])
  ++ (if flags.l3node then ["l3node"] else [])
  ++ (if flags.blockscout then ["blockscout"] else [])
  ++ (if flags.l2Timeboost then ["timeboost-auctioneer", "timeboost-bid-validator"] else [])

/-- Returns the initial sequencer nodes that need to be started first
(`calculateInitialSequencerNodes`). The source takes a record with the
single field `redundantsequencers` (a `Pick` of `ServiceCalculationFlags`);
here it takes the full record and reads only that field. -/
def calculateInitialSequencerNodes (flags : ServiceCalculationFlags) : List String :=
  ["sequencer"]
  ++ (if flags.redundantsequencers > 0 then ["sequencer_b"] else [])

/-! ## String utilities (src/utils/shell.ts and timeboost.ts extraction)

JavaScript strings are modelled as `List Char`. -/

/-- Whitespace as matched by JavaScript `trim` and the `\s` regex class
(restricted to the ASCII whitespace the repository's command output can
contain). -/
def isJsWs (c : Char) : Bool :=
  c = ' ' || c = '\t' || c = '\n' || c = '\r' || c = '\x0b' || c = '\x0c'

/-- JavaScript `String.prototype.trim`: drop leading and trailing
whitespace. -/
def jsTrim (l : List Char) : List Char :=
  ((l.dropWhile isJsWs).reverse.dropWhile isJsWs).reverse

/-- JavaScript `String.prototype.split(sep)` for a single-character
separator (used as `split('\n')`). Always returns at least one piece. -/
def splitOnChar (sep : Char) : List Char → List (List Char)
  | [] => [[]]
  | c :: cs =>
    match splitOnChar sep cs with
    | [] => [[]]
    | h :: t => if c = sep then [] :: h :: t else (c :: h) :: t

/-- Worker for `splitWs`. `inWs` records whether the previous character
belonged to a whitespace run (so further whitespace extends the same
separator match); `acc` holds the current piece reversed. -/
def splitWsAux : Bool → List Char → List Char → List (List Char)
  | _, acc, [] => [acc.reverse]
  | inWs, acc, c :: cs =>
    if isJsWs c then
      if inWs then splitWsAux true acc cs
      else acc.reverse :: splitWsAux true [] cs
    else splitWsAux false (c :: acc) cs

/-- JavaScript `String.prototype.split(/\s+/)`: split on maximal runs of
whitespace (a leading or trailing run contributes an empty piece, exactly
as the regex split does). -/
def splitWs (l : List Char) : List (List Char) :=
  splitWsAux false [] l

/-- First pass of `cleanOutput`: `replace(/\r\n/g, '\n')`. -/
def removeCRLF : List Char → List Char
  | [] => []
  | [c] => [c]
  | c :: d :: rest =>
    if c = '\r' ∧ d = '\n' then '\n' :: removeCRLF rest
    else c :: removeCRLF (d :: rest)

/-- Second pass of `cleanOutput`: `replace(/\r/g, '')`. -/
def removeCR (l : List Char) : List Char :=
  l.filter (fun c => c ≠ '\r')

/-- `cleanOutput` (shell.ts): remove carriage returns, then trim. -/
def cleanOutput (l : List Char) : List Char :=
  jsTrim (removeCR (removeCRLF l))

/-- `getLastLine` (shell.ts): trim the output, split on newlines, take the
last line, trim it.  `lines[lines.length - 1]?.trim() ?? ''` is rendered
with `getLastD` (the split is never empty). -/
def getLastLine (output : List Char) : List Char :=
  let lines := splitOnChar '\n' (jsTrim output)
  jsTrim (lines.getLastD [])

/-- JavaScript `String.prototype.startsWith('0x')`. -/
def startsWith0x (l : List Char) : Bool :=
  ['0', 'x'].isPrefixOf l

/-- The address-extraction logic of `deployBiddingToken`
(src/orchestration/timeboost.ts lines 57-64), as a pure function of the
command's stdout: take the last word of the last line, clean it, and
require the `0x` prefix; otherwise fail with the offending value in the
message. -/
def extractBiddingTokenAddress (stdout : List Char) : Except (List Char) (List Char) :=
  let lastLine := getLastLine stdout
  let words := splitWs lastLine
  let tokenAddress := cleanOutput (words.getLastD [])
  if tokenAddress.isEmpty || !startsWith0x tokenAddress then
    .error ("Invalid bidding token address: ".toList ++ tokenAddress)
  else
    .ok tokenAddress

/-! ## Command executor and pipeline monad

The spec's Command Executor collaborator (§6) is modelled as an oracle
from the full command line to a captured result.  Pipeline code runs in
`M`: failures (`throw new Error(...)`) are `Except.error` carrying the
message, and the state records the mutable `InitContext` together with a
trace of observable events (executed commands and log lines). -/

/-- Captured result of an external command (`runWithCode` in shell.ts). -/
structure CmdResult where
  stdout : String
  stderr : String
  code : Int
  deriving DecidableEq, Repr

/-- The Command Executor oracle: what each command line returns when run. -/
def Exec : Type := String → CmdResult

/-- Observable pipeline events: an external command being executed, or a
line written through the logger (tagged with its level). -/
inductive Event where
  | cmd (cmdline : String)
  | log (level : String) (message : String)
  deriving DecidableEq, Repr

/-- AnyTrust configuration (`AnyTrustConfig` in anytrust.ts). -/
structure AnyTrustConfig where
  dasBlsA : String
  dasBlsB : String
  deriving DecidableEq, Repr

/-- Context passed between init phases (`InitContext` in
orchestration/index.ts); optional fields start unset. -/
structure InitContext where
  flags : TestnodeFlags
  workDir : String
  l2OwnerAddress : Option String := none
  l2OwnerKey : Option String := none
  sequencerAddress : Option String := none
  wasmRoot : Option String := none
  l1ChainId : Int
  anyTrustConfig : Option AnyTrustConfig := none
  deriving DecidableEq, Repr

/-- Mutable state threaded through the pipeline: the event trace, the
logger's global verbose mode (`verboseMode` in logger.ts), and the
`InitContext` (mutated by reference in the source). -/
structure PipelineState where
  events : List Event := []
  verbose : Bool := false
  ctx : InitContext
  deriving DecidableEq, Repr

/-- Pipeline computations: exceptions are thrown error messages
(`Except.error`), state is the `PipelineState`, passed explicitly. -/
def M (α : Type) : Type := PipelineState → Except String α × PipelineState

/-- Monadic return for `M`. -/
def M.pure {α : Type} (a : α) : M α := fun s => (.ok a, s)

/-- Monadic bind for `M`: a thrown error short-circuits the rest. -/
def M.bind {α β : Type} (x : M α) (f : α → M β) : M β := fun s =>
  match x s with
  | (.ok a, s') => f a s'
  | (.error e, s') => (.error e, s')

/-- `throw new Error(message)`. -/
def M.throw {α : Type} (e : String) : M α := fun s => (.error e, s)

/-- `try { x } catch (e) { handle(e) }`. -/
def M.tryCatch {α : Type} (x : M α) (handle : String → M α) : M α := fun s =>
  match x s with
  | (.ok a, s') => (.ok a, s')
  | (.error e, s') => handle e s'

/-- Read the pipeline state. -/
def M.get : M PipelineState := fun s => (.ok s, s)

/-- Replace the pipeline state. -/
def M.set (s' : PipelineState) : M Unit := fun _ => (.ok (), s')

/-- Combined read-and-update of the pipeline state. -/
def M.modifyGet {α : Type} (f : PipelineState → α × PipelineState) : M α := fun s =>
  match f s with
  | (a, s') => (.ok a, s')

instance : Monad M where
  pure := M.pure
  bind := M.bind

instance : MonadExceptOf String M where
  throw := M.throw
  tryCatch := M.tryCatch

instance : MonadStateOf PipelineState M where
  get := M.get
  set := M.set
  modifyGet := M.modifyGet

/-- Append an observable event to the trace. -/
def emitEvent (e : Event) : M Unit :=
  modify fun s => { s with events := s.events ++ [e] }

/-- Read the `InitContext`. -/
def getCtx : M InitContext := do
  return (← get).ctx

/-- Mutate the `InitContext` (models TypeScript's by-reference writes). -/
def modifyCtx (f : InitContext → InitContext) : M Unit :=
  modify fun s => { s with ctx := f s.ctx }

/-- `logger.info` (logger.ts). -/
def loggerInfo (message : String) : M Unit := emitEvent (.log "info" message)

/-- `logger.success` (logger.ts). -/
def loggerSuccess (message : String) : M Unit := emitEvent (.log "success" message)

/-- `logger.warn` (logger.ts). -/
def loggerWarn (message : String) : M Unit := emitEvent (.log "warn" message)

/-- `logger.error` (logger.ts). -/
def loggerError (message : String) : M Unit := emitEvent (.log "error" message)

/-- `logger.step` (logger.ts). -/
def loggerStep (message : String) : M Unit := emitEvent (.log "step" message)

/-- `logger.debug` (logger.ts): only shown in verbose mode. -/
def loggerDebug (message : String) : M Unit := do
  let s ← get
  if s.verbose then emitEvent (.log "debug" message)

/-- `logger.command` (logger.ts): only shown in verbose mode. -/
def loggerCommand (cmdline : String) : M Unit := do
  let s ← get
  if s.verbose then emitEvent (.log "command" cmdline)

/-- `runWithCode` (shell.ts): log the command, execute it, return the
captured result.  Timeouts and env overrides do not change the
observable behaviour and are not modelled. -/
def runWithCode (exec : Exec) (cmd : String) : M CmdResult := do
  loggerCommand cmd
  emitEvent (.cmd cmd)
  pure (exec cmd)

/-- `runStreaming` (shell.ts): log `cmd args...`, spawn it through the
shell, return only the exit code. -/
def runStreaming (exec : Exec) (cmd : String) (args : List String) : M Int := do
  let full := cmd ++ " " ++ String.intercalate " " args
  loggerCommand full
  emitEvent (.cmd full)
  pure (exec full).code

/-! ## docker compose wrappers (src/docker/compose.ts) -/

/-- The option bag accepted by the compose helpers (`ComposeOptions`);
only the fields that shape the command line are modelled. -/
structure ComposeOptions where
  composeFile : Option String := none
  projectName : Option String := none
  detach : Bool := false
  wait : Bool := false
  removeOrphans : Bool := false
  noBuild : Bool := false
  forceRecreate : Bool := false
  volumes : Bool := false
  deriving Repr

/-- `buildBaseArgs` (compose.ts). -/
def buildBaseArgs (options : ComposeOptions) : List String :=
  (match options.composeFile with
   | some f => ["-f", f]
   | none => [])
  ++
  (match options.projectName with
   | some p => ["-p", p]
   | none => [])

/-- `composeRun` (compose.ts): `docker compose run --rm <service> <cmd>`. -/
def composeRun (exec : Exec) (service : String) (command : List String)
    (options : ComposeOptions) : M CmdResult :=
  let baseArgs := buildBaseArgs options
  let cmd := String.intercalate " "
    (["docker", "compose"] ++ baseArgs ++ ["run", "--rm", service] ++ command)
  runWithCode exec cmd

/-- `composeUp` (compose.ts): `docker compose up ...` via streaming, exit
code only. -/
def composeUp (exec : Exec) (services : List String)
    (options : ComposeOptions) : M Int :=
  let baseArgs := buildBaseArgs options
  let upArgs :=
    (if options.detach then ["-d"] else [])
    ++ (if options.wait then ["--wait"] else [])
    ++ (if options.removeOrphans then ["--remove-orphans"] else [])
    ++ (if options.noBuild then ["--no-build"] else [])
    ++ (if options.forceRecreate then ["--force-recreate"] else [])
  runStreaming exec "docker" (["compose"] ++ baseArgs ++ ["up"] ++ upArgs ++ services)

/-- `composeDown` (compose.ts). -/
def composeDown (exec : Exec) (options : ComposeOptions) : M CmdResult :=
  let baseArgs := buildBaseArgs options
  let downArgs :=
    (if options.volumes then ["-v"] else [])
    ++ (if options.removeOrphans then ["--remove-orphans"] else [])
  runWithCode exec
    (String.intercalate " " (["docker", "compose"] ++ baseArgs ++ ["down"] ++ downArgs))

/-- `composeBuild` (compose.ts): streaming build, exit code only (cache
options unused by the embedded callers). -/
def composeBuild (exec : Exec) (services : List String)
    (options : ComposeOptions) : M Int :=
  let baseArgs := buildBaseArgs options
  runStreaming exec "docker" (["compose"] ++ baseArgs ++ ["build"] ++ services)

/-! ## L1 bootstrap sub-workflow (src/orchestration/l1-setup.ts, prysm.ts) -/

/-- `writePrysmConfig` (prysm.ts). -/
def writePrysmConfig (exec : Exec) : M Unit := do
  loggerStep "Writing Prysm config"
  let result ← composeRun exec "scripts" ["write-prysm-config"] {}
  if result.code ≠ 0 then
    throw ("Failed to write Prysm config: " ++ result.stderr)

/-- `createBeaconChainGenesis` (prysm.ts). -/
def createBeaconChainGenesis (exec : Exec) : M Unit := do
  loggerStep "Creating Prysm genesis"
  let result ← composeRun exec "create_beacon_chain_genesis" [] {}
  if result.code ≠ 0 then
    throw ("Failed to create beacon chain genesis: " ++ result.stderr)

/-- `startBeaconChain` (prysm.ts). -/
def startBeaconChain (exec : Exec) : M Unit := do
  loggerStep "Starting Prysm beacon chain"
  let exitCode ← composeUp exec ["prysm_beacon_chain"] { detach := true }
  if exitCode ≠ 0 then
    throw "Failed to start Prysm beacon chain"

/-- `startValidator` (prysm.ts). -/
def startValidator (exec : Exec) : M Unit := do
  loggerStep "Starting Prysm validator"
  let exitCode ← composeUp exec ["prysm_validator"] { detach := true }
  if exitCode ≠ 0 then
    throw "Failed to start Prysm validator"

/-- `setupPrysm` (prysm.ts): only runs when the `pos` flag is set. -/
def setupPrysm (exec : Exec) : M Unit := do
  let ctx ← getCtx
  if !ctx.flags.pos then
    loggerDebug "Skipping Prysm setup (PoS not enabled)"
    return
  loggerStep "Setting up Prysm PoS consensus"
  writePrysmConfig exec
  createBeaconChainGenesis exec
  startBeaconChain exec
  startValidator exec
  loggerSuccess "Prysm PoS setup complete"

/-- `generateL1Keys` (l1-setup.ts). -/
def generateL1Keys (exec : Exec) : M Unit := do
  loggerStep "Generating L1 keys"
  let writeAccountsResult ← composeRun exec "scripts" ["write-accounts"] {}
  if writeAccountsResult.code ≠ 0 then
    throw ("Failed to write accounts: " ++ writeAccountsResult.stderr)
  let passphraseResult ←
    composeRun exec "geth" ["sh", "-c", "echo passphrase > /datadir/passphrase"] {}
  if passphraseResult.code ≠ 0 then
    throw ("Failed to create passphrase: " ++ passphraseResult.stderr)
  let keystoreResult ← composeRun exec "geth" ["sh", "-c", "chown -R 1000:1000 /keystore"] {}
  if keystoreResult.code ≠ 0 then
    throw ("Failed to fix keystore ownership: " ++ keystoreResult.stderr)
  let configResult ← composeRun exec "geth" ["sh", "-c", "chown -R 1000:1000 /config"] {}
  if configResult.code ≠ 0 then
    throw ("Failed to fix config ownership: " ++ configResult.stderr)
  loggerSuccess "L1 keys generated"

/-- `writeGethGenesis` (l1-setup.ts). -/
def writeGethGenesis (exec : Exec) : M Unit := do
  loggerStep "Writing geth genesis config"
  let result ← composeRun exec "scripts" ["write-geth-genesis-config"] {}
  if result.code ≠ 0 then
    throw ("Failed to write geth genesis config: " ++ result.stderr)

/-- `initializeGeth` (l1-setup.ts). -/
def initializeGeth (exec : Exec) : M Unit := do
  loggerStep "Initializing geth genesis configuration"
  let result ← composeRun exec "geth"
    ["init", "--state.scheme", "hash", "--datadir", "/datadir/", "/config/geth_genesis.json"] {}
  if result.code ≠ 0 then
    throw ("Failed to initialize geth: " ++ result.stderr)

/-- `startGeth` (l1-setup.ts): start geth detached, then run the
sync-wait script; a non-zero exit of the latter is the distinctive
"Geth sync failed" fatal error. -/
def startGeth (exec : Exec) : M Unit := do
  loggerStep "Starting geth"
  let exitCode ← composeUp exec ["geth"] { detach := true }
  if exitCode ≠ 0 then
    throw "Failed to start geth"
  loggerStep "Waiting for geth to sync"
  let syncResult ← composeRun exec "scripts" ["wait-for-sync", "--url", "http://geth:8545"] {}
  if syncResult.code ≠ 0 then
    throw ("Geth sync failed: " ++ syncResult.stderr)
  loggerSuccess "Geth is ready"

/-- `fundAccounts` (l1-setup.ts). -/
def fundAccounts (exec : Exec) : M Unit := do
  loggerStep "Funding validator, sequencer and l2owner"
  let accounts := ["validator", "sequencer", "l2owner"]
  for account in accounts do
    loggerDebug ("Funding " ++ account)
    let result ← composeRun exec "scripts"
      ["send-l1", "--ethamount", "1000", "--to", account, "--wait"] {}
    if result.code ≠ 0 then
      throw ("Failed to fund " ++ account ++ ": " ++ result.stderr)
  loggerSuccess "Accounts funded"

/-- `getL2OwnerAddress` (l1-setup.ts): read the l2owner address and
require the `0x` prefix. -/
def getL2OwnerAddress (exec : Exec) : M String := do
  let result ← composeRun exec "scripts" ["print-address", "--account", "l2owner"] {}
  if result.code ≠ 0 then
    throw ("Failed to get l2owner address: " ++ result.stderr)
  let address := (cleanOutput (getLastLine result.stdout.toList)).asString
  if address = "" ∨ ¬ address.startsWith "0x" then
    throw ("Invalid l2owner address: " ++ address)
  return address

/-- `setupL1` (l1-setup.ts): the L1 bootstrap sequence. -/
def setupL1 (exec : Exec) : M Unit := do
  generateL1Keys exec
  writeGethGenesis exec
  setupPrysm exec
  initializeGeth exec
  startGeth exec
  fundAccounts exec
  let addr ← getL2OwnerAddress exec
  modifyCtx fun c => { c with l2OwnerAddress := some addr }
  loggerDebug ("L2 owner address: " ++ addr)
  loggerSuccess "L1 setup complete"

/-! ## Phase scheduler (src/orchestration/index.ts) -/

/-- Volume project label used by cleanup (source constant
`TESTNODE_VOLUME_PREFIX`, renamed here). -/
def TESTNODE_VOLUME_PROJECT : String := "nitro-testnode"

/-- JavaScript `trim` on the `String` wrapper. -/
def jsTrimS (s : String) : String := (jsTrim s.toList).asString

/-- `stdout.trim().split('\n').filter(Boolean)` as used by cleanup. -/
def splitNonEmptyLines (s : String) : List String :=
  ((splitOnChar '\n' (jsTrimS s).toList).map List.asString).filter (fun x => x ≠ "")

/-- `cleanupExisting` (orchestration/index.ts lines 59-103): compose down,
remove leftover containers, prune and remove leftover volumes. -/
def cleanupExisting (exec : Exec) : M Unit := do
  loggerStep "Removing old data"
  let downResult ← composeDown exec {}
  if downResult.code ≠ 0 then
    loggerDebug ("Compose down warning: " ++ downResult.stderr)
  let containersResult ← runWithCode exec
    "docker container ls -a --filter label=com.docker.compose.project=nitro-testnode -q"
  if containersResult.code = 0 ∧ jsTrimS containersResult.stdout ≠ "" then
    let containerIds := splitNonEmptyLines containersResult.stdout
    if containerIds.length > 0 then
      loggerDebug ("Removing " ++ toString containerIds.length ++ " leftover container(s)")
      let _ ← runWithCode exec ("docker rm " ++ String.intercalate " " containerIds)
  let _ ← runWithCode exec
    ("docker volume prune -f --filter label=com.docker.compose.project=" ++
      TESTNODE_VOLUME_PROJECT)
  let volumesResult ← runWithCode exec
    ("docker volume ls --filter label=com.docker.compose.project=" ++
      TESTNODE_VOLUME_PROJECT ++ " -q")
  if volumesResult.code = 0 ∧ jsTrimS volumesResult.stdout ≠ "" then
    let volumeNames := splitNonEmptyLines volumesResult.stdout
    if volumeNames.length > 0 then
      loggerDebug ("Removing " ++ toString volumeNames.length ++ " leftover volume(s)")
      let _ ← runWithCode exec ("docker volume rm " ++ String.intercalate " " volumeNames)
  loggerSuccess "Cleanup complete"

/-- Modelled from the spec: the build-or-fetch-images phase body
(`buildDockerImages` in orchestration/docker-builds.ts, which is absent
from src/).  Per spec §4.3 and §6 the phase issues image build calls
through the Command Executor and any non-zero exit code is fatal; it is
modelled as one `docker compose build` invocation. -/
def buildDockerImages (exec : Exec) : M Unit := do
  loggerStep "Building docker images"
  let exitCode ← composeBuild exec [] {}
  if exitCode ≠ 0 then
    throw "Failed to build docker images"

/-- Init phase definition (`InitPhase` in orchestration/index.ts):
a name, a body, and an optional skip predicate over the context. -/
structure InitPhase where
  name : String
  run : M Unit
  skip : Option (InitContext → Bool) := none

/-- The sub-workflows invoked by the later phases (`deployL2` in
l2-deploy.ts, `configureL2Nodes` in l2-config.ts and
`setupTrafficGenerators` in traffic.ts).  The claims about the scheduler
abort before these phases, so their bodies are left as parameters and
the theorems quantify over them. -/
structure SubWorkflows where
  deployL2 : M (Option AnyTrustConfig)
  configureL2Nodes : Option AnyTrustConfig → M Unit
  setupTrafficGenerators : M Unit

/-- `createInitPhases` (orchestration/index.ts lines 108-170): all init
phases in order. -/
def createInitPhases (exec : Exec) (sw : SubWorkflows) : List InitPhase :=
  [ { name := "Cleanup existing data"
      run := cleanupExisting exec },
    { name := "Build docker images"
      run := buildDockerImages exec },
    { name := "Setup L1 chain"
      run := setupL1 exec },
    { name := "Deploy L2 chain"
      run := do
        let cfg ← sw.deployL2
        modifyCtx fun c => { c with anyTrustConfig := cfg } },
    { name := "Configure L2 nodes"
      run := do
        let ctx ← getCtx
        sw.configureL2Nodes ctx.anyTrustConfig },
    { name := "Setup traffic generators"
      run := sw.setupTrafficGenerators
      skip := some fun ctx =>
        !ctx.flags.l1Traffic && !ctx.flags.l2Traffic && !ctx.flags.l3Traffic },
    { name := "Launch services"
      run := do
        let ctx ← getCtx
        let services := calculateServices (toServiceFlags ctx.flags)
        loggerStep ("Starting services: " ++ String.intercalate ", " services)
        let useWait := !ctx.flags.nowait
        let exitCode ← composeUp exec services { detach := true, wait := useWait }
        if exitCode ≠ 0 then
          throw "Failed to launch services"
        loggerSuccess "Services launched" } ]

/-- The phase loop of `runInit` (orchestration/index.ts lines 186-201):
evaluate the skip predicate, log the phase name, run the body; on failure
log `Phase "<name>" failed: <message>` and re-throw the original error,
which ends the loop. -/
def runPhases : List InitPhase → M Unit
  | [] => pure ()
  | phase :: rest => do
    let ctx ← getCtx
    let skipped :=
      match phase.skip with
      | some f => f ctx
      | none => false
    if skipped then
      loggerDebug ("Skipping phase: " ++ phase.name)
      runPhases rest
    else
      loggerInfo phase.name
      tryCatch phase.run fun e => do
        loggerError ("Phase \"" ++ phase.name ++ "\" failed: " ++ e)
        throw e
      runPhases rest

/-- `runInit` (orchestration/index.ts lines 175-204): create the context,
run all phases in order. -/
def runInit (exec : Exec) (sw : SubWorkflows) (flags : TestnodeFlags)
    (workDir : String) : M Unit := do
  loggerInfo "Initializing Nitro Testnode"
  modify fun s =>
    { s with ctx := { flags := flags, workDir := workDir, l1ChainId := 1337 } }
  runPhases (createInitPhases exec sw)
  loggerSuccess "Testnode initialization complete"

/-- Initial pipeline state for a run with the given flags. -/
def initPipelineState (flags : TestnodeFlags) (workDir : String) : PipelineState :=
  { ctx := { flags := flags, workDir := workDir, l1ChainId := 1337 } }

/-- Run the whole pipeline from the initial state and return what the
caller of `runInit` observes: the outcome and the final state. -/
def runPipeline (exec : Exec) (sw : SubWorkflows) (flags : TestnodeFlags)
    (workDir : String) : Except String Unit × PipelineState :=
  runInit exec sw flags workDir (initPipelineState flags workDir)

/-- The command line of the L1 sync-wait step. -/
def syncWaitCmd : String :=
  "docker compose run --rm scripts wait-for-sync --url http://geth:8545"

/-- A Command Executor stub on which every command succeeds except the
sync-wait step, which exits non-zero. -/
def syncFailExec : Exec := fun cmd =>
  if cmd = syncWaitCmd then { stdout := "", stderr := "connection timed out", code := 1 }
  else { stdout := "", stderr := "", code := 0 }

/-- Trivial closed sub-workflow bodies, used only to instantiate
counterexamples (the scenarios abort before any of them runs). -/
def swTrivial : SubWorkflows where
  deployL2 := pure none
  configureL2Nodes := fun _ => pure ()
  setupTrafficGenerators := pure ()

/-- Substring test (`String.prototype.includes`) on `List Char`. -/
def listContainsSub (hay needle : List Char) : Bool :=
  needle.isPrefixOf hay ||
    match hay with
    | [] => false
    | _ :: t => listContainsSub t needle

/-- Substring test on `String`. -/
def strContainsSub (hay needle : String) : Bool :=
  listContainsSub hay.toList needle.toList

/-- JavaScript `String.prototype.startsWith` on the `String` wrapper,
computed on the underlying character lists. -/
def strStartsWith (s pre : String) : Bool :=
  pre.toList.isPrefixOf s.toList

/-! ## Concrete inputs used by the claim theorems -/

/-- The FlagSet of claim C1: defaults with simple=true, batchposters=2
(`simple` already defaults to true). -/
def c1Flags : TestnodeFlags := { defaultFlags with simple := true, batchposters := 2 }

/-- The FlagSet of claim C7. -/
def c7Flags : ServiceCalculationFlags :=
  { simple := false, redundantsequencers := 0, batchposters := 2, validate := false,
    l3node := false, blockscout := false, l2Timeboost := false }

/-- A concrete FlagSet satisfying claim C5's hypotheses. -/
def c5Flags : TestnodeFlags := { defaultFlags with l3FeeTokenPricer := true, l3node := true }

/-- A concrete FlagSet satisfying claim C6's hypotheses. -/
def c6Flags : TestnodeFlags := { defaultFlags with nowait := true }

/-- Concrete command output whose last line's last token is a `0x` address. -/
def c8GoodOutput : List Char :=
  "deploying...\nToken deployed at: 0xABCDEF0123456789000000000000000000000000".toList

/-- Concrete command output whose last line holds no `0x` token. -/
def c8BadOutput : List Char := "done\nno address here".toList

/-- The event trace of the aborted run of claim C2: every event of the
cleanup, image-build and L1-bootstrap phases up to and including the
failing sync-wait step, and nothing of any later phase. -/
def c2AbortEvents : List Event :=
  [ Event.log "info" "Initializing Nitro Testnode",
    Event.log "info" "Cleanup existing data",
    Event.log "step" "Removing old data",
    Event.cmd "docker compose down",
    Event.cmd "docker container ls -a --filter label=com.docker.compose.project=nitro-testnode -q",
    Event.cmd "docker volume prune -f --filter label=com.docker.compose.project=nitro-testnode",
    Event.cmd "docker volume ls --filter label=com.docker.compose.project=nitro-testnode -q",
    Event.log "success" "Cleanup complete",
    Event.log "info" "Build docker images",
    Event.log "step" "Building docker images",
    Event.cmd "docker compose build",
    Event.log "info" "Setup L1 chain",
    Event.log "step" "Generating L1 keys",
    Event.cmd "docker compose run --rm scripts write-accounts",
    Event.cmd "docker compose run --rm geth sh -c echo passphrase > /datadir/passphrase",
    Event.cmd "docker compose run --rm geth sh -c chown -R 1000:1000 /keystore",
    Event.cmd "docker compose run --rm geth sh -c chown -R 1000:1000 /config",
    Event.log "success" "L1 keys generated",
    Event.log "step" "Writing geth genesis config",
    Event.cmd "docker compose run --rm scripts write-geth-genesis-config",
    Event.log "step" "Initializing geth genesis configuration",
    Event.cmd "docker compose run --rm geth init --state.scheme hash --datadir /datadir/ /config/geth_genesis.json",
    Event.log "step" "Starting geth",
    Event.cmd "docker compose up -d geth",
    Event.log "step" "Waiting for geth to sync",
    Event.cmd "docker compose run --rm scripts wait-for-sync --url http://geth:8545",
    Event.log "error" "Phase \"Setup L1 chain\" failed: Geth sync failed: connection timed out" ]

/-! ## Shared helper lemmas -/

/-- Membership in a conditional list segment. -/
theorem mem_ite_list {α : Type} (a : α) (c : Prop) [Decidable c] (l l' : List α) :
    (a ∈ if c then l else l') ↔ (c ∧ a ∈ l) ∨ (¬ c ∧ a ∈ l') := by
  split <;> rename_i h <;> simp [h]

/-! ## Claim C1 -/

/-- Claim C1 as stated is false: for defaults with simple=true and
batchposters=2, `calculateServices` does include the second poster
`poster_b` (the `batchposters > 1` threshold ignores simple mode), so the
topology does not omit all poster services. -/
theorem c1_counterexample :
    "poster_b" ∈ calculateServices (toServiceFlags c1Flags) := by decide

/-- Claim C1 (amended): for a FlagSet with simple=true and batchposters=2
and all other flags at their defaults, `calculateServices` omits `poster`
and `poster_c` but contains `poster_b`, and `validateFlags` returns
valid=true with a warning whose code is SIMPLE_MODE_IGNORES_BATCH_POSTERS. -/
theorem c1_simple_mode_posters :
    ((calculateServices (toServiceFlags c1Flags)).contains "poster") = false ∧
    ((calculateServices (toServiceFlags c1Flags)).contains "poster_c") = false ∧
    "poster_b" ∈ calculateServices (toServiceFlags c1Flags) ∧
    (validateFlags c1Flags).valid = true ∧
    ValidationWarningCode.SIMPLE_MODE_IGNORES_BATCH_POSTERS ∈
      (validateFlags c1Flags).warnings.map (fun w => w.code) := by decide

/-! ## Claim C7 -/

/-- Claim C7: for batchposters=2, redundantsequencers=0, simple=false,
validate=false, l3node=false, blockscout=false, l2Timeboost=false,
`calculateServices` returns exactly the five services sequencer, redis,
poster, poster_b and staker-unsafe, with no duplicates. -/
theorem c7_topology_five_services :
    calculateServices c7Flags =
      ["sequencer", "redis", "poster", "poster_b", "staker-unsafe"] ∧
    (calculateServices c7Flags).Nodup := by decide

/-! ## Claim C4 -/

/-- Claim C4: for every FlagSet, `calculateServices` includes `poster` iff
batchposters > 0 and simple is false; `poster_b` iff batchposters > 1 and
`poster_c` iff batchposters > 2, both regardless of simple. -/
theorem c4_poster_membership (flags : ServiceCalculationFlags) :
    ("poster" ∈ calculateServices flags ↔ flags.batchposters > 0 ∧ flags.simple = false) ∧
    ("poster_b" ∈ calculateServices flags ↔ flags.batchposters > 1) ∧
    ("poster_c" ∈ calculateServices flags ↔ flags.batchposters > 2) := by
  simp only [calculateServices, List.mem_append, mem_ite_list, List.mem_singleton,
    List.mem_cons, List.not_mem_nil, or_false, and_false, false_and, and_true, true_and]
  refine ⟨?_, ?_, ?_⟩ <;> cases hs : flags.simple <;> simp [hs]

/-! ## Claim C9 -/

/-- Claim C9: `calculateServices` never includes both `validator` and
`staker-unsafe`; it includes `validator` iff validate=true and
`staker-unsafe` iff validate=false and simple=false (so neither when
validate=false and simple=true). -/
theorem c9_validator_staker_exclusive (flags : ServiceCalculationFlags) :
    (("validator" ∈ calculateServices flags ∧
      "staker-unsafe" ∈ calculateServices flags) ↔ False) ∧
    ("validator" ∈ calculateServices flags ↔ flags.validate = true) ∧
    ("staker-unsafe" ∈ calculateServices flags ↔
      flags.validate = false ∧ flags.simple = false) := by
  simp only [calculateServices, List.mem_append, mem_ite_list, List.mem_singleton,
    List.mem_cons, List.not_mem_nil, or_false, and_false, false_and, and_true, true_and]
  refine ⟨?_, ?_, ?_⟩ <;> cases hv : flags.validate <;> cases hs : flags.simple <;>
    simp [hv, hs]

/-! ## Claim C10 -/

/-- Claim C10: every service returned by `calculateInitialSequencerNodes`
is also a member of `calculateServices` on the same FlagSet. -/
theorem c10_initial_nodes_subset (flags : ServiceCalculationFlags) (s : String)
    (h : s ∈ calculateInitialSequencerNodes flags) : s ∈ calculateServices flags := by
  simp only [calculateInitialSequencerNodes, List.mem_append, mem_ite_list,
    List.mem_singleton, List.not_mem_nil, or_false, and_false, false_and] at h
  simp only [calculateServices, List.mem_append, mem_ite_list, List.mem_singleton,
    List.mem_cons, List.not_mem_nil]
  rcases h with h | ⟨hr, h⟩
  · subst h; simp
  · subst h; simp [hr]

/-- Witness for C10 at a concrete FlagSet and service. -/
theorem c10_initial_nodes_subset_witness :
    "sequencer" ∈ calculateServices (toServiceFlags defaultFlags) :=
  c10_initial_nodes_subset (toServiceFlags defaultFlags) "sequencer" (by decide)

/-! ## Claim C5 -/

/-- Claim C5: with l3FeeTokenPricer=true, l3FeeToken=false, l3node=true and
every other fatal rule satisfied, `validateFlags` reports exactly the
pricer-requires-fee-token error plus, exactly when the decimals differ from
18 (within [0,36]), the decimals-requires-fee-token error, and no others. -/
theorem c5_pricer_errors_reported_together (f : TestnodeFlags)
    (hp : f.l3FeeTokenPricer = true) (hft : f.l3FeeToken = false) (hl3 : f.l3node = true)
    (hnw : (f.nowait && !f.detach) = false)
    (hd0 : MIN_FEE_TOKEN_DECIMALS ≤ f.l3FeeTokenDecimals)
    (hd1 : f.l3FeeTokenDecimals ≤ MAX_FEE_TOKEN_DECIMALS)
    (hb0 : 0 ≤ f.batchposters) (hb1 : f.batchposters ≤ MAX_BATCH_POSTERS)
    (hr0 : 0 ≤ f.redundantsequencers)
    (hr1 : f.redundantsequencers ≤ MAX_REDUNDANT_SEQUENCERS) :
    (validateFlags f).errors.map (fun e => e.code) =
      if f.l3FeeTokenDecimals = 18 then
        [ValidationErrorCode.L3_FEE_TOKEN_PRICER_REQUIRES_FEE_TOKEN]
      else
        [ValidationErrorCode.L3_FEE_TOKEN_PRICER_REQUIRES_FEE_TOKEN,
         ValidationErrorCode.L3_FEE_TOKEN_DECIMALS_REQUIRES_FEE_TOKEN] := by
  simp only [MIN_FEE_TOKEN_DECIMALS, MAX_FEE_TOKEN_DECIMALS, MAX_BATCH_POSTERS,
    MAX_REDUNDANT_SEQUENCERS] at hd0 hd1 hb1 hr1
  by_cases hd : f.l3FeeTokenDecimals = 18 <;>
    simp [validateFlags, validateRuntimeDependencies, validateL3Dependencies,
      validateRangeConstraints, hp, hft, hl3, hnw, hd,
      MIN_FEE_TOKEN_DECIMALS, MAX_FEE_TOKEN_DECIMALS, MAX_BATCH_POSTERS,
      MAX_REDUNDANT_SEQUENCERS] <;>
    omega

/-- Witness for C5 at the concrete FlagSet `c5Flags` (decimals = 18). -/
theorem c5_pricer_errors_reported_together_witness :
    (validateFlags c5Flags).errors.map (fun e => e.code) =
      [ValidationErrorCode.L3_FEE_TOKEN_PRICER_REQUIRES_FEE_TOKEN] :=
  c5_pricer_errors_reported_together c5Flags (by decide) (by decide) (by decide)
    (by decide) (by decide) (by decide) (by decide) (by decide) (by decide) (by decide)

/-! ## Claim C6 -/

/-- Claim C6: with nowait=true and detach=false and every other fatal rule
satisfied, `validateFlags` returns valid=false and exactly the single
NOWAIT_REQUIRES_DETACH error. -/
theorem c6_nowait_requires_detach (f : TestnodeFlags)
    (hnw : f.nowait = true) (hdt : f.detach = false)
    (h1 : (f.l3FeeToken && !f.l3node) = false)
    (h2 : (f.l3FeeTokenPricer && !f.l3FeeToken) = false)
    (h3 : ¬(f.l3FeeTokenDecimals ≠ 18 ∧ (!f.l3FeeToken) = true))
    (h4 : (f.l3TokenBridge && !f.l3node) = false)
    (hd0 : MIN_FEE_TOKEN_DECIMALS ≤ f.l3FeeTokenDecimals)
    (hd1 : f.l3FeeTokenDecimals ≤ MAX_FEE_TOKEN_DECIMALS)
    (hb0 : 0 ≤ f.batchposters) (hb1 : f.batchposters ≤ MAX_BATCH_POSTERS)
    (hr0 : 0 ≤ f.redundantsequencers)
    (hr1 : f.redundantsequencers ≤ MAX_REDUNDANT_SEQUENCERS) :
    (validateFlags f).valid = false ∧
    (validateFlags f).errors.map (fun e => e.code) =
      [ValidationErrorCode.NOWAIT_REQUIRES_DETACH] := by
  simp only [MIN_FEE_TOKEN_DECIMALS, MAX_FEE_TOKEN_DECIMALS, MAX_BATCH_POSTERS,
    MAX_REDUNDANT_SEQUENCERS] at hd0 hd1 hb1 hr1
  have h5 : ¬(f.l3FeeTokenDecimals < MIN_FEE_TOKEN_DECIMALS ∨
      f.l3FeeTokenDecimals > MAX_FEE_TOKEN_DECIMALS) := by
    simp only [MIN_FEE_TOKEN_DECIMALS, MAX_FEE_TOKEN_DECIMALS]; omega
  have h6 : ¬(f.batchposters < 0 ∨ f.batchposters > MAX_BATCH_POSTERS) := by
    simp only [MAX_BATCH_POSTERS]; omega
  have h7 : ¬(f.redundantsequencers < 0 ∨
      f.redundantsequencers > MAX_REDUNDANT_SEQUENCERS) := by
    simp only [MAX_REDUNDANT_SEQUENCERS]; omega
  simp [validateFlags, validateRuntimeDependencies, validateL3Dependencies,
    validateRangeConstraints, hnw, hdt, h1, h2, h3, h4, h5, h6, h7]
  intro hne
  cases hb : f.l3FeeToken
  · exact absurd ⟨hne, by simp [hb]⟩ h3
  · rfl

/-- Witness for C6 at the concrete FlagSet `c6Flags`. -/
theorem c6_nowait_requires_detach_witness :
    (validateFlags c6Flags).valid = false ∧
    (validateFlags c6Flags).errors.map (fun e => e.code) =
      [ValidationErrorCode.NOWAIT_REQUIRES_DETACH] :=
  c6_nowait_requires_detach c6Flags (by decide) (by decide) (by decide) (by decide)
    (by decide) (by decide) (by decide) (by decide) (by decide) (by decide)
    (by decide) (by decide)

/-! ## Pipeline evaluation helper lemmas -/

/-- Evaluating a monadic bind of `M` at a state. -/
theorem bind_apply {α β : Type} (x : M α) (f : α → M β) (s : PipelineState) :
    (x >>= f) s =
      match x s with
      | (.ok a, s') => f a s'
      | (.error e, s') => (.error e, s') := rfl

/-- Evaluating `tryCatch` at a state. -/
theorem tryCatch_apply {α : Type} (x : M α) (hdl : String → M α) (s : PipelineState) :
    (tryCatch x hdl) s =
      match x s with
      | (.ok a, s') => (.ok a, s')
      | (.error e, s') => hdl e s' := rfl

/-- Evaluating `throw` at a state. -/
theorem throw_apply {α : Type} (e : String) (s : PipelineState) :
    (throw e : M α) s = (.error e, s) := rfl

/-- Evaluating `getCtx` at a state. -/
theorem getCtx_apply (s : PipelineState) : getCtx s = (.ok s.ctx, s) := rfl

/-- Evaluating `loggerInfo` at a state. -/
theorem loggerInfo_apply (msg : String) (s : PipelineState) :
    loggerInfo msg s = (.ok (), { s with events := s.events ++ [.log "info" msg] }) := rfl

/-- Evaluating `loggerError` at a state. -/
theorem loggerError_apply (msg : String) (s : PipelineState) :
    loggerError msg s = (.ok (), { s with events := s.events ++ [.log "error" msg] }) := rfl

/-! ## Claim C2 -/

/-- Claim C2: when the sync-wait step of the L1 bootstrap phase returns a
non-zero exit code, `runInit` aborts with an error whose message begins
with "Geth sync failed", the event trace is exactly the cleanup /
image-build / L1-bootstrap prefix ending at the failing sync-wait command
(so it is independent of the deploy-L2, configure-L2 and traffic
sub-workflow bodies, quantified here), and no later phase ever starts:
the trace holds no phase-start log of "Deploy L2 chain",
"Configure L2 nodes", "Setup traffic generators" or "Launch services". -/
theorem c2_sync_fail_aborts_pipeline (dB : M (Option AnyTrustConfig))
    (cB : Option AnyTrustConfig → M Unit) (tB : M Unit) :
    (runPipeline syncFailExec ⟨dB, cB, tB⟩ defaultFlags "/work").1 =
      .error "Geth sync failed: connection timed out" ∧
    (runPipeline syncFailExec ⟨dB, cB, tB⟩ defaultFlags "/work").2.events = c2AbortEvents ∧
    (strStartsWith "Geth sync failed: connection timed out" "Geth sync failed") = true ∧
    (c2AbortEvents.contains (Event.log "info" "Deploy L2 chain")) = false ∧
    (c2AbortEvents.contains (Event.log "info" "Configure L2 nodes")) = false ∧
    (c2AbortEvents.contains (Event.log "info" "Setup traffic generators")) = false ∧
    (c2AbortEvents.contains (Event.log "info" "Launch services")) = false :=
  ⟨rfl, rfl, rfl, rfl, rfl, rfl, rfl⟩

/-! ## Claim C3 -/

/-- Claim C3 as stated is false: in the sync-failure run, a phase body
throws (the trace holds the scheduler's `Phase "Setup L1 chain" failed:`
error log), yet the error the caller of `runInit` receives is the
original "Geth sync failed: connection timed out", which does not carry
the failing phase's name. -/
theorem c3_counterexample :
    (runPipeline syncFailExec swTrivial defaultFlags "/work").1 =
      .error "Geth sync failed: connection timed out" ∧
    strContainsSub "Geth sync failed: connection timed out" "Setup L1 chain" = false ∧
    ((runPipeline syncFailExec swTrivial defaultFlags "/work").2.events.contains
      (Event.log "error"
        "Phase \"Setup L1 chain\" failed: Geth sync failed: connection timed out")) = true :=
  ⟨rfl, rfl, rfl⟩

/-- Claim C3 (amended): when a phase body throws, the scheduler logs an
error message that carries the phase name (`Phase "<name>" failed: <m>`),
re-throws the original error `m` unchanged to the caller, and no further
phase executes (the result does not depend on the remaining phases). -/
theorem c3_phase_failure_logged_and_rethrown (name : String) (body : M Unit)
    (rest : List InitPhase) (s s' : PipelineState) (m : String)
    (h : body { s with events := s.events ++ [Event.log "info" name] } = (.error m, s')) :
    runPhases ({ name := name, run := body, skip := none } :: rest) s =
      (.error m, { s' with events := s'.events ++
        [Event.log "error" ("Phase \"" ++ name ++ "\" failed: " ++ m)] }) := by
  simp only [runPhases, bind_apply, tryCatch_apply, throw_apply, getCtx_apply,
    loggerInfo_apply, loggerError_apply, h]
  simp only [Bool.false_eq_true, if_false, bind_apply, tryCatch_apply, throw_apply,
    loggerInfo_apply, loggerError_apply, h]

/-- Witness for the amended C3 at a concrete failing phase. -/
theorem c3_phase_failure_logged_and_rethrown_witness :
    runPhases [{ name := "Example phase", run := (throw "boom" : M Unit), skip := none }]
        (initPipelineState defaultFlags "/work") =
      (.error "boom",
        { initPipelineState defaultFlags "/work" with events :=
            [Event.log "info" "Example phase",
             Event.log "error" "Phase \"Example phase\" failed: boom"] }) :=
  c3_phase_failure_logged_and_rethrown "Example phase" (throw "boom") []
    (initPipelineState defaultFlags "/work")
    { initPipelineState defaultFlags "/work" with
        events := [Event.log "info" "Example phase"] }
    "boom" rfl

/-! ## Claim C8 -/

/-- `splitWsAux` never returns an empty list of pieces. -/
theorem splitWsAux_ne_nil : ∀ (l : List Char) (inWs : Bool) (acc : List Char),
    splitWsAux inWs acc l ≠ [] := by
  intro l
  induction l with
  | nil => intro inWs acc; simp [splitWsAux]
  | cons d cs ih =>
    intro inWs acc
    by_cases hd : isJsWs d <;> cases inWs <;> simp [splitWsAux, hd] <;> exact ih _ _

/-- Every piece produced by `splitWsAux` from a whitespace-free
accumulator consists of non-whitespace characters only. -/
theorem splitWsAux_no_ws : ∀ (l : List Char) (inWs : Bool) (acc : List Char),
    (∀ c ∈ acc, isJsWs c = false) →
    ∀ p ∈ splitWsAux inWs acc l, ∀ c ∈ p, isJsWs c = false := by
  intro l
  induction l with
  | nil =>
    intro inWs acc hacc p hp c hc
    simp [splitWsAux] at hp
    subst hp
    exact hacc c (List.mem_reverse.mp hc)
  | cons d cs ih =>
    intro inWs acc hacc p hp c hc
    by_cases hd : isJsWs d
    · cases inWs
      · simp [splitWsAux, hd] at hp
        rcases hp with hp | hp
        · subst hp; exact hacc c (List.mem_reverse.mp hc)
        · exact ih true [] (by simp) p hp c hc
      · simp [splitWsAux, hd] at hp
        exact ih true acc hacc p hp c hc
    · simp [splitWsAux, hd] at hp
      refine ih false (d :: acc) ?_ p hp c hc
      intro x hx
      rcases List.mem_cons.mp hx with hx | hx
      · subst hx; simpa using hd
      · exact hacc x hx

/-- The default-carrying last element of a non-empty list is a member. -/
theorem mem_getLastD {α : Type} : ∀ (l : List α) (a d : α), (a :: l).getLastD d ∈ a :: l := by
  intro l
  induction l with
  | nil => intro a d; simp [List.getLastD]
  | cons b t ih =>
    intro a d
    rw [List.getLastD_cons]
    exact List.mem_cons_of_mem a (ih b a)

/-- `dropWhile` is the identity when no element satisfies the predicate. -/
theorem dropWhile_eq_self_of_no_sat {α : Type} (p : α → Bool) :
    ∀ (l : List α), (∀ c ∈ l, p c = false) → l.dropWhile p = l := by
  intro l h
  cases l with
  | nil => rfl
  | cons a t => rw [List.dropWhile_cons, if_neg (by simp [h a (by simp)])]

/-- `jsTrim` is the identity on whitespace-free strings. -/
theorem jsTrim_eq_self {l : List Char} (h : ∀ c ∈ l, isJsWs c = false) : jsTrim l = l := by
  unfold jsTrim
  rw [dropWhile_eq_self_of_no_sat isJsWs l h,
    dropWhile_eq_self_of_no_sat isJsWs l.reverse
      (fun c hc => h c (List.mem_reverse.mp hc)),
    List.reverse_reverse]

/-- `removeCRLF` is the identity on carriage-return-free strings. -/
theorem removeCRLF_eq_self : ∀ (l : List Char), (∀ c ∈ l, c ≠ '\r') → removeCRLF l = l
  | [], _ => rfl
  | [_], _ => rfl
  | c :: d :: rest, h => by
    rw [removeCRLF, if_neg (by exact fun hcd => h c (by simp) hcd.1),
      removeCRLF_eq_self (d :: rest) (fun x hx => h x (List.mem_cons_of_mem c hx))]

/-- `removeCR` is the identity on carriage-return-free strings. -/
theorem removeCR_eq_self {l : List Char} (h : ∀ c ∈ l, c ≠ '\r') : removeCR l = l :=
  List.filter_eq_self.mpr (fun a ha => by simpa using h a ha)

/-- `cleanOutput` is the identity on whitespace-free strings. -/
theorem cleanOutput_eq_self {t : List Char} (h : ∀ c ∈ t, isJsWs c = false) :
    cleanOutput t = t := by
  have hr : ∀ c ∈ t, c ≠ '\r' := by
    intro c hc heq
    subst heq
    simpa [isJsWs] using h _ hc
  unfold cleanOutput
  rw [removeCRLF_eq_self t hr, removeCR_eq_self hr, jsTrim_eq_self h]

/-- Claim C8: address extraction takes the last whitespace-delimited token
of the final line of the trimmed output. When that token starts with `0x`
the extraction returns exactly it (cleaning strips nothing from a token);
when the extracted value does not start with `0x` the operation fails with
a fatal error whose message includes the offending raw value. -/
theorem c8_address_extraction (output : List Char) :
    (startsWith0x ((splitWs (getLastLine output)).getLastD []) = true →
      extractBiddingTokenAddress output =
        .ok ((splitWs (getLastLine output)).getLastD [])) ∧
    (startsWith0x (cleanOutput ((splitWs (getLastLine output)).getLastD [])) = false →
      extractBiddingTokenAddress output =
        .error ("Invalid bidding token address: ".toList ++
          cleanOutput ((splitWs (getLastLine output)).getLastD []))) := by
  constructor
  · intro h0x
    have hnn : splitWs (getLastLine output) ≠ [] :=
      splitWsAux_ne_nil (getLastLine output) false []
    have hmem : (splitWs (getLastLine output)).getLastD [] ∈
        splitWs (getLastLine output) := by
      cases hw : splitWs (getLastLine output) with
      | nil => exact absurd hw hnn
      | cons a t => exact mem_getLastD t a []
    have htoken : ∀ c ∈ (splitWs (getLastLine output)).getLastD [], isJsWs c = false :=
      fun c hc => splitWsAux_no_ws (getLastLine output) false [] (by simp)
        ((splitWs (getLastLine output)).getLastD []) hmem c hc
    have hclean : cleanOutput ((splitWs (getLastLine output)).getLastD []) =
        (splitWs (getLastLine output)).getLastD [] := cleanOutput_eq_self htoken
    have hne : ((splitWs (getLastLine output)).getLastD []).isEmpty = false := by
      cases ht : (splitWs (getLastLine output)).getLastD [] with
      | nil => rw [ht] at h0x; simp [startsWith0x, List.isPrefixOf] at h0x
      | cons a t => rfl
    simp only [extractBiddingTokenAddress, hclean, hne, h0x, Bool.not_true,
      Bool.or_false, Bool.false_eq_true, if_false]
  · intro hno
    simp only [extractBiddingTokenAddress, hno, Bool.not_false, Bool.or_true,
      Bool.true_eq_false, if_true]

/-- Witness for C8: a concrete output with a `0x` last token extracts
exactly that token, and a concrete output without one is rejected with
the offending value in the message. -/
theorem c8_address_extraction_witness :
    extractBiddingTokenAddress c8GoodOutput =
      .ok "0xABCDEF0123456789000000000000000000000000".toList ∧
    extractBiddingTokenAddress c8BadOutput =
      .error "Invalid bidding token address: here".toList :=
  ⟨(c8_address_extraction c8GoodOutput).1 (by decide),
   (c8_address_extraction c8BadOutput).2 (by decide)⟩
